import Mathlib

/-!
Shallow embedding of `src/libmproxy/models/flow.py` (classes `Error` and
`Flow`).  Python object identity is modelled by a `Nat` address drawn from an
allocator that is threaded through every operation that creates an object
(`copy.copy`, `uuid.uuid4`, `Error(...)`, the dict returned by
`get_state`).  Calls into the controller (`master.handle_error`,
`master.handle_intercept`, `master.handle_accept_intercept`) and
invocations of the reply continuation are recorded in an event list.
Code of the repository that is imported by `flow.py` but absent from
`src/` (`stateobject.py`, `connections.py`, `utils.py`, `version.py`) is
modelled from the spec; each such definition is marked in its doc
comment.
-/

namespace Mitmproxy

/-- Supply of fresh identities; every draw is the current counter, so two
draws from successive states never coincide. -/
structure Alloc where
  next : Nat
deriving DecidableEq, Repr

/-- Draw one fresh identity. -/
def Alloc.fresh (a : Alloc) : Nat × Alloc :=
  (a.next, ⟨a.next + 1⟩)

/-- Modelled from the spec: `version.IVERSION`, the ambient schema-version
integer stamped into every state dump (its concrete value is irrelevant to
the model). -/
def IVERSION : Nat := 1

/-- Embedding of `class Error`: `flow` is the owner back-reference (an
object identity or `None`), `msg` may be `None` (the `from_state`
placeholder constructor passes `None`), `timestamp` is modelled as an
integer number of seconds. -/
structure Error where
  addr : Nat
  flow : Option Nat
  msg : Option String
  timestamp : Int
deriving DecidableEq, Repr

/-- `Error.__init__(msg, timestamp=None)`: `self.flow = None`,
`self.msg = msg`, `self.timestamp = timestamp or utils.timestamp()`.
`utils.timestamp()` (not under `src/`) is modelled from the spec as the
current time, passed in as `now`; Python `or` falls through on the falsy
values `None` and `0`. -/
def Error.init (msg : Option String) (timestamp : Option Int) (now : Int)
    (a : Alloc) : Error × Alloc :=
  let (ad, a1) := a.fresh
  let ts := match timestamp with
    | some t => if t = 0 then now else t
    | none => now
  ({ addr := ad, flow := none, msg := msg, timestamp := ts }, a1)

/-- The full-mode state mapping of an `Error`, per its
`_stateobject_attributes = dict(msg=str, timestamp=float)`. -/
structure ErrorState where
  msg : Option String
  timestamp : Int
deriving DecidableEq, Repr

/-- Modelled from the spec: `stateobject.get_state` on `Error` serializes
the two schema-declared attributes (`stateobject.py` is not under
`src/`). -/
def Error.get_state (e : Error) : ErrorState :=
  { msg := e.msg, timestamp := e.timestamp }

/-- Modelled from the spec: `stateobject.load_state` on `Error` sets the
two schema-declared attributes in place (`stateobject.py` is not under
`src/`). -/
def Error.load_state (e : Error) (s : ErrorState) : Error :=
  { e with msg := s.msg, timestamp := s.timestamp }

/-- `Error.from_state`: `f = cls(None)` followed by `f.load_state(state)`.
The placeholder constructor is called with `msg=None` and
`timestamp=None`; the timestamp it fills in is then overwritten by
`load_state`. -/
def Error.from_state (s : ErrorState) (now : Int) (a : Alloc) :
    Error × Alloc :=
  let (e, a1) := Error.init none none now a
  (e.load_state s, a1)

/-- `Error.copy`: `c = copy.copy(self)` — a shallow copy: a new object
identity whose every attribute (`flow` back-reference included) is taken
from the original. -/
def Error.copy (e : Error) (a : Alloc) : Error × Alloc :=
  let (ad, a1) := a.fresh
  ({ e with addr := ad }, a1)

/-- Modelled from the spec: `ClientConnection`
(`connections.py` is not under `src/`) — an opaque connection record with
a `copy()` producing an independent duplicate and participation in the
generic state schema; its serializable payload is collapsed to one
field. -/
structure ClientConnection where
  addr : Nat
  st : Nat
deriving DecidableEq, Repr

/-- Modelled from the spec: `ClientConnection.copy` returns an
independent duplicate (fresh identity, same payload). -/
def ClientConnection.copy (c : ClientConnection) (a : Alloc) :
    ClientConnection × Alloc :=
  let (ad, a1) := a.fresh
  ({ c with addr := ad }, a1)

/-- Modelled from the spec: `ClientConnection.get_state`. -/
def ClientConnection.get_state (c : ClientConnection) : Nat := c.st

/-- Modelled from the spec: `ClientConnection.load_state` mutates the
receiver in place. -/
def ClientConnection.load_state (c : ClientConnection) (s : Nat) :
    ClientConnection :=
  { c with st := s }

/-- Modelled from the spec: `ServerConnection`, same shape as
`ClientConnection`. -/
structure ServerConnection where
  addr : Nat
  st : Nat
deriving DecidableEq, Repr

/-- Modelled from the spec: `ServerConnection.copy`. -/
def ServerConnection.copy (c : ServerConnection) (a : Alloc) :
    ServerConnection × Alloc :=
  let (ad, a1) := a.fresh
  ({ c with addr := ad }, a1)

/-- Modelled from the spec: `ServerConnection.get_state`. -/
def ServerConnection.get_state (c : ServerConnection) : Nat := c.st

/-- Modelled from the spec: `ServerConnection.load_state`. -/
def ServerConnection.load_state (c : ServerConnection) (s : Nat) :
    ServerConnection :=
  { c with st := s }

/-- The framework part of a `Flow` state mapping: the keys of
`Flow._stateobject_attributes` (`id`, `type`, `intercepted`, `error`,
`client_conn`, `server_conn`). -/
structure FlowBaseState where
  id : Nat
  type : String
  intercepted : Bool
  error : Option ErrorState
  client_conn : Nat
  server_conn : Nat
deriving DecidableEq, Repr

/-- A stored backup dict: the framework keys plus the `version` key
stamped by `Flow.get_state`.  A dict captured by `Flow.backup` never
carries a `modified` or `backup` key, because at capture time
`self.backupSlot` is `None`, so the extra-key branch of `get_state` is not
taken. -/
structure FlowBaseVer where
  base : FlowBaseState
  version : Nat
deriving DecidableEq, Repr

/-- A dict returned by `Flow.get_state`: framework keys, the `version`
stamp, and the optional `modified` / `backup` keys added by the
backup-difference branch (each `Option` is `none` when the key is
absent). -/
structure FlowState where
  base : FlowBaseState
  version : Nat
  modified : Option Bool
  backup : Option FlowBaseVer
deriving DecidableEq, Repr

/-- Python `==` between a stored backup dict and a dict returned by
`get_state`: dict equality is key-by-key, so the two are equal exactly
when the `get_state` dict carries no `modified`/`backup` key and the
shared keys agree. -/
def FlowState.eqBV (s : FlowState) (bv : FlowBaseVer) : Bool :=
  decide (s.base = bv.base ∧ s.version = bv.version ∧ s.modified = none ∧
    s.backup = none)

/-- The payload passed to the reply continuation: `Kill` (the sentinel
imported from `..protocol`) or no payload (`reply()`). -/
inductive Payload where
  | kill
  | noPayload
deriving DecidableEq, Repr

/-- One observable call made by a `Flow` method: an invocation of the
reply continuation, or a controller notification carrying the flow's
identity. -/
inductive Event where
  | replyInvoked (p : Payload)
  | handle_error (flow : Nat)
  | handle_intercept (flow : Nat)
  | handle_accept_intercept (flow : Nat)
deriving DecidableEq, Repr

/-- The Python exception raised when a method call fails; `kill` and
`accept_intercept` call `self.reply(...)` unguarded, which raises
`TypeError` when `self.reply` is `None`. -/
inductive Exn where
  | typeError
deriving DecidableEq, Repr

/-- Embedding of `class Flow`.  `_backup` stores the identity of the dict
object together with its value (Python keeps a reference to the dict
returned by `get_state`); `reply` stores the identity of the attached
continuation object, `none` when unset. -/
structure Flow where
  addr : Nat
  type : String
  id : Nat
  client_conn : ClientConnection
  server_conn : ServerConnection
  live : Option Bool
  error : Option Error
  intercepted : Bool
  backupSlot : Option (Nat × FlowBaseVer)
  reply : Option Nat
deriving DecidableEq, Repr

/-- `Flow.__init__(type, client_conn, server_conn, live=None)`: fresh
random `id` (`str(uuid.uuid4())`, modelled as a fresh draw), `error`,
`_backup` and `reply` unset, `intercepted` false. -/
def Flow.init (type : String) (client_conn : ClientConnection)
    (server_conn : ServerConnection) (live : Option Bool) (a : Alloc) :
    Flow × Alloc :=
  let (fa, a1) := a.fresh
  let (nid, a2) := a1.fresh
  ({ addr := fa, type := type, id := nid, client_conn := client_conn,
     server_conn := server_conn, live := live, error := none,
     intercepted := false, backupSlot := none, reply := none }, a2)

/-- Modelled from the spec: the framework half of `Flow.get_state`
(`super(Flow, self).get_state(short)` in `stateobject.py`, not under
`src/`): serialize every schema-declared attribute, nested `Stateful`
attributes via their own `get_state`.  The spec allows short mode to
summarize; for these attributes it is modelled as identical to full
mode. -/
def Flow.super_get_state (f : Flow) : FlowBaseState :=
  { id := f.id, type := f.type, intercepted := f.intercepted,
    error := f.error.map Error.get_state,
    client_conn := f.client_conn.get_state,
    server_conn := f.server_conn.get_state }

/-- `Flow.get_state(short=False)`: delegate to the framework, stamp
`version`, and when `self.backupSlot` is set (a non-empty dict, hence
truthy) and differs from the dict built so far, add `modified=True` in
short mode or embed the stored backup dict under `backup` in full
mode. -/
def Flow.get_state (f : Flow) (short : Bool) : FlowState :=
  let d : FlowState :=
    { base := f.super_get_state, version := IVERSION, modified := none,
      backup := none }
  match f.backupSlot with
  | some (_, bv) =>
      if ¬ d.eqBV bv then
        if short then { d with modified := some true }
        else { d with backup := some bv }
      else d
  | none => d

/-- `Flow.__eq__`: `self is other` — identity comparison. -/
def Flow.eq (f g : Flow) : Bool := f.addr = g.addr

/-- `Flow.copy`: `f = copy.copy(self)` (shallow copy: new identity, all
attributes — `_backup` and `reply` included — taken by reference from the
original), then fresh `id`, `live = False`, both connections replaced by
their own `copy()`, and `error` replaced by its own `copy()` when set (an
`Error` object is always truthy). -/
def Flow.copy (f : Flow) (a : Alloc) : Flow × Alloc :=
  let (fa, a1) := a.fresh
  let (nid, a2) := a1.fresh
  let (cc, a3) := f.client_conn.copy a2
  let (sc, a4) := f.server_conn.copy a3
  let g : Flow := { f with
    addr := fa
    id := nid
    live := some false
    client_conn := cc
    server_conn := sc }
  match f.error with
  | some e =>
      let (e2, a5) := e.copy a4
      ({ g with error := some e2 }, a5)
  | none => (g, a4)

/-- `Flow.modified`: true iff `self.backupSlot` is set and differs (dict
inequality) from `self.get_state()` (full mode). -/
def Flow.modified (f : Flow) : Bool :=
  match f.backupSlot with
  | some (_, bv) => ! (f.get_state false).eqBV bv
  | none => false

/-- `Flow.backup(force=False)`: capture `self.get_state()` into the
backup slot only when `if not self.backupSlot` holds; the `force` parameter
appears in the signature but is never read by the body. -/
def Flow.backup (f : Flow) (_force : Bool) (a : Alloc) : Flow × Alloc :=
  match f.backupSlot with
  | some _ => (f, a)
  | none =>
      let (da, a1) := a.fresh
      let s := f.get_state false
      ({ f with backupSlot := some (da, ⟨s.base, s.version⟩) }, a1)

/-- Modelled from the spec: the framework `load_state` on `Flow`
(`stateobject.py` is not under `src/`): set every schema-declared
attribute from the mapping (keys outside the schema, such as `version`,
are not schema attributes and are ignored), reconstructing the nested
`error` via its own restore path and restoring the connection payloads in
place. -/
def Flow.load_state (f : Flow) (bv : FlowBaseVer) (now : Int) (a : Alloc) :
    Flow × Alloc :=
  let (err, a1) : Option Error × Alloc :=
    match bv.base.error with
    | some es =>
        let (e, a1) := Error.from_state es now a
        (some e, a1)
    | none => (none, a)
  ({ f with
      id := bv.base.id
      type := bv.base.type
      intercepted := bv.base.intercepted
      error := err
      client_conn := f.client_conn.load_state bv.base.client_conn
      server_conn := f.server_conn.load_state bv.base.server_conn }, a1)

/-- `Flow.revert`: when a backup is present, `load_state` from it, then
clear the backup slot; otherwise do nothing. -/
def Flow.revert (f : Flow) (now : Int) (a : Alloc) : Flow × Alloc :=
  match f.backupSlot with
  | some (_, bv) =>
      let (f1, a1) := f.load_state bv now a
      ({ f1 with backupSlot := none }, a1)
  | none => (f, a)

/-- The outcome of `Flow.kill`: the flow as left by the call (Python
mutates `self` in place, so the fields written before an exception stay
written), the observable calls made, the allocator after the
`Error(...)` construction, and the exception if one escaped. -/
structure KillResult where
  flow : Flow
  events : List Event
  alloc : Alloc
  exn : Option Exn
deriving DecidableEq, Repr

/-- The outcome of `Flow.accept_intercept`: the flow as left by the
call, the observable calls made, and the exception if one escaped. -/
structure AcceptResult where
  flow : Flow
  events : List Event
  exn : Option Exn
deriving DecidableEq, Repr

/-- `Flow.kill(master)`: unconditionally set `error` to a fresh
`Error("Connection killed")`, set `intercepted = False`, then call
`self.reply(Kill)` — which raises `TypeError` when `reply` is `None`,
after the two field writes — and finally `master.handle_error(self)`. -/
def Flow.kill (f : Flow) (now : Int) (a : Alloc) : KillResult :=
  let (err, a1) := Error.init (some "Connection killed") none now a
  let f1 := { f with error := some err, intercepted := false }
  match f.reply with
  | some _ =>
      { flow := f1,
        events := [Event.replyInvoked Payload.kill,
                   Event.handle_error f.addr],
        alloc := a1, exn := none }
  | none =>
      { flow := f1, events := [], alloc := a1, exn := some Exn.typeError }

/-- `Flow.intercept(master)`: return immediately when already
intercepted; otherwise set `intercepted = True` and notify the controller
via `handle_intercept`. -/
def Flow.intercept (f : Flow) : Flow × List Event :=
  if f.intercepted then (f, [])
  else ({ f with intercepted := true }, [Event.handle_intercept f.addr])

/-- `Flow.accept_intercept(master)`: return immediately when not
intercepted; otherwise set `intercepted = False`, call `self.reply()`
(raising `TypeError` when `reply` is `None`), and notify the controller
via `handle_accept_intercept`. -/
def Flow.accept_intercept (f : Flow) : AcceptResult :=
  if ¬ f.intercepted then
    { flow := f, events := [], exn := none }
  else
    let f1 := { f with intercepted := false }
    match f.reply with
    | some _ =>
        { flow := f1,
          events := [Event.replyInvoked Payload.noPayload,
                     Event.handle_accept_intercept f.addr],
          exn := none }
    | none =>
        { flow := f1, events := [], exn := some Exn.typeError }

/-! Concrete fixtures used by witnesses and counterexamples. -/

/-- A concrete client connection (identity 0, payload 10). -/
def cc0 : ClientConnection := ⟨0, 10⟩

/-- A concrete server connection (identity 1, payload 20). -/
def sc0 : ServerConnection := ⟨1, 20⟩

/-- A concrete freshly constructed flow (identity 2, id 3). -/
def flow0 : Flow := (Flow.init "http" cc0 sc0 (some true) ⟨2⟩).1

/-- `flow0` with a reply continuation (identity 4) attached, as the proxy
handler does before dispatching the flow for review. -/
def flowR : Flow := { flow0 with reply := some 4 }

/-- A concrete error owned by some flow (back-reference set to
identity 42). -/
def errX : Error := ⟨7, some 42, some "boom", 5⟩

/-- A concrete stored backup dict whose `id` field (99) differs from
`flow0.id` (3), so it disagrees with the currently computed state. -/
def bv0 : FlowBaseVer := ⟨⟨99, "http", false, none, 10, 20⟩, IVERSION⟩

/-- `flowR` with a backup already stored (dict identity 50, value
`bv0`). -/
def flowB : Flow := { flowR with backupSlot := some (50, bv0) }

/-- C2: the claim as stated is false on the code: `Error.copy` is a
shallow `copy.copy`, so the owner back-reference is carried over, not
unset — on `errX` (back-reference 42) the copy's back-reference is still
42. -/
theorem C2_counterexample :
    (errX.copy ⟨100⟩).1.flow ≠ none ∧ (errX.copy ⟨100⟩).1.flow = errX.flow := by
  decide

/-- C2 (amended): `Error.copy` returns a new object (fresh identity) with
the same `msg`, the same `timestamp`, and the same owner back-reference
as the original (the back-reference is carried over by the shallow
copy, not unset). -/
theorem Error_copy_shallow (e : Error) (a : Alloc) :
    (e.copy a).1.msg = e.msg ∧ (e.copy a).1.timestamp = e.timestamp ∧
    (e.copy a).1.flow = e.flow ∧ (e.copy a).1.addr = a.next := by
  simp [Error.copy, Alloc.fresh]

/-- C7: the first `kill()` on a live, not-yet-killed flow with a reply
continuation attached sets `error` to an `Error` with message
"Connection killed", sets `intercepted` to false, invokes the reply
continuation exactly once with the `Kill` payload, and notifies the
controller via `handle_error`, raising no exception. -/
theorem kill_first_call (f : Flow) (r : Nat) (now : Int) (a : Alloc)
    (hr : f.reply = some r) (_hl : f.live = some true)
    (_he : f.error = none) :
    ((f.kill now a).flow.error.map Error.msg = some (some "Connection killed")) ∧
    (f.kill now a).flow.intercepted = false ∧
    (f.kill now a).events =
      [Event.replyInvoked Payload.kill, Event.handle_error f.addr] ∧
    ((f.kill now a).events.count (Event.replyInvoked Payload.kill) = 1) ∧
    (f.kill now a).exn = none := by
  simp [Flow.kill, Error.init, Alloc.fresh, hr, List.count_cons]

/-- C7 witness: the theorem applied to the concrete flow `flowR`. -/
theorem kill_first_call_witness :
    ((flowR.kill 1000 ⟨5⟩).flow.error.map Error.msg =
      some (some "Connection killed")) ∧
    (flowR.kill 1000 ⟨5⟩).flow.intercepted = false ∧
    (flowR.kill 1000 ⟨5⟩).events =
      [Event.replyInvoked Payload.kill, Event.handle_error flowR.addr] ∧
    ((flowR.kill 1000 ⟨5⟩).events.count (Event.replyInvoked Payload.kill) = 1) ∧
    (flowR.kill 1000 ⟨5⟩).exn = none :=
  kill_first_call flowR 4 1000 ⟨5⟩ (by decide) (by decide) (by decide)

/-- C8: redundant interception transitions are no-ops: `intercept()` run
twice notifies `handle_intercept` exactly once (the second call changes
nothing and emits nothing), and `accept_intercept()` on a non-intercepted
flow leaves the flow unchanged, emits no controller notification and no
reply invocation, and raises nothing. -/
theorem redundant_transitions (f : Flow) (h : f.intercepted = false) :
    f.intercept.2 = [Event.handle_intercept f.addr] ∧
    f.intercept.1.intercept.1 = f.intercept.1 ∧
    f.intercept.1.intercept.2 = [] ∧
    ((f.intercept.2 ++ f.intercept.1.intercept.2).count
      (Event.handle_intercept f.addr) = 1) ∧
    f.accept_intercept.flow = f ∧ f.accept_intercept.events = [] ∧
    f.accept_intercept.exn = none := by
  simp [Flow.intercept, Flow.accept_intercept, h, List.count_cons]

/-- C8 witness: the theorem applied to the concrete flow `flow0`. -/
theorem redundant_transitions_witness :
    flow0.intercept.2 = [Event.handle_intercept flow0.addr] ∧
    flow0.intercept.1.intercept.1 = flow0.intercept.1 ∧
    flow0.intercept.1.intercept.2 = [] ∧
    ((flow0.intercept.2 ++ flow0.intercept.1.intercept.2).count
      (Event.handle_intercept flow0.addr) = 1) ∧
    flow0.accept_intercept.flow = flow0 ∧ flow0.accept_intercept.events = [] ∧
    flow0.accept_intercept.exn = none :=
  redundant_transitions flow0 (by decide)

/-- C9: `copy()` draws a fresh id (different from the original's, since
the original's id was drawn earlier from the same supply), sets `live` to
false, and the copy is not equal to the original because `Flow.__eq__` is
`self is other`: identity-based, never structural — it compares exactly
the object identities and ignores every field value. -/
theorem copy_fresh_identity (f : Flow) (a : Alloc)
    (hid : f.id < a.next) (haddr : f.addr < a.next) :
    (f.copy a).1.id ≠ f.id ∧ (f.copy a).1.live = some false ∧
    Flow.eq (f.copy a).1 f = false ∧
    (∀ f1 f2 : Flow, Flow.eq f1 f2 = true ↔ f1.addr = f2.addr) := by
  have h1 : (f.copy a).1.id = a.next + 1 := by
    cases hE : f.error <;>
      simp [Flow.copy, hE, Alloc.fresh, ClientConnection.copy,
        ServerConnection.copy, Error.copy]
  have h2 : (f.copy a).1.addr = a.next := by
    cases hE : f.error <;>
      simp [Flow.copy, hE, Alloc.fresh, ClientConnection.copy,
        ServerConnection.copy, Error.copy]
  have h3 : (f.copy a).1.live = some false := by
    cases hE : f.error <;>
      simp [Flow.copy, hE, Alloc.fresh, ClientConnection.copy,
        ServerConnection.copy, Error.copy]
  have hne : ¬ ((f.copy a).1.addr = f.addr) := by rw [h2]; omega
  refine ⟨by rw [h1]; omega, h3, decide_eq_false hne,
    fun f1 f2 => by simp [Flow.eq]⟩

/-- C9 witness: the theorem applied to the concrete flow `flow0` (id 3,
identity 2) and allocator counter 100. -/
theorem copy_fresh_identity_witness :
    (flow0.copy ⟨100⟩).1.id ≠ flow0.id ∧
    (flow0.copy ⟨100⟩).1.live = some false ∧
    Flow.eq (flow0.copy ⟨100⟩).1 flow0 = false ∧
    (∀ f1 f2 : Flow, Flow.eq f1 f2 = true ↔ f1.addr = f2.addr) :=
  copy_fresh_identity flow0 ⟨100⟩ (by decide) (by decide)

/-- C10: a freshly constructed flow has `reply = None`, and `kill()` on
it invokes the continuation unguarded: the call raises `TypeError` after
having already set `error` to the "Connection killed" `Error` and written
`intercepted = false`, and the controller is never notified — the failure
leaves the flow mutated, so it is not atomic. -/
theorem kill_without_reply (type : String) (cc : ClientConnection)
    (sc : ServerConnection) (live : Option Bool) (a0 : Alloc) (now : Int)
    (a : Alloc) :
    (Flow.init type cc sc live a0).1.reply = none ∧
    ((Flow.init type cc sc live a0).1.kill now a).exn = some Exn.typeError ∧
    ((Flow.init type cc sc live a0).1.kill now a).events = [] ∧
    (((Flow.init type cc sc live a0).1.kill now a).flow.error.map Error.msg =
      some (some "Connection killed")) ∧
    ((Flow.init type cc sc live a0).1.kill now a).flow.intercepted = false := by
  simp [Flow.init, Flow.kill, Error.init, Alloc.fresh]

/-- C1: the claim as stated is false on the code: `kill()` has no
already-killed guard.  On the concrete flow `flowR`, after a first
`kill()` (the flow is then in the killed status: `error.msg` is
"Connection killed") a second `kill()` again invokes the reply
continuation, again notifies the controller via `handle_error`, and
changes the `error` field (a fresh `Error` object replaces the stored
one). -/
theorem C1_counterexample :
    (flowR.kill 100 ⟨5⟩).flow.error.map Error.msg =
      some (some "Connection killed") ∧
    ((flowR.kill 100 ⟨5⟩).flow.kill 200 (flowR.kill 100 ⟨5⟩).alloc).events =
      [Event.replyInvoked Payload.kill, Event.handle_error flowR.addr] ∧
    ((flowR.kill 100 ⟨5⟩).flow.kill 200 (flowR.kill 100 ⟨5⟩).alloc).flow.error ≠
      (flowR.kill 100 ⟨5⟩).flow.error := by
  decide

/-- C1 (amended): `kill()` is not idempotent.  On a flow with a reply
continuation attached, a second `kill()` after a first one re-invokes the
reply continuation with the `Kill` payload, re-notifies the controller
via `handle_error`, and replaces the `error` field with a fresh `Error`
object. -/
theorem kill_not_idempotent (f : Flow) (r : Nat) (now now2 : Int)
    (a : Alloc) (h : f.reply = some r) :
    ((f.kill now a).flow.kill now2 (f.kill now a).alloc).events =
      [Event.replyInvoked Payload.kill, Event.handle_error f.addr] ∧
    ((f.kill now a).flow.kill now2 (f.kill now a).alloc).flow.error ≠
      (f.kill now a).flow.error := by
  constructor
  · simp [Flow.kill, Error.init, Alloc.fresh, h]
  · simp [Flow.kill, Error.init, Alloc.fresh, h]

/-- C1 witness: the amended theorem applied to the concrete flow
`flowR`. -/
theorem kill_not_idempotent_witness :
    ((flowR.kill 100 ⟨5⟩).flow.kill 200 (flowR.kill 100 ⟨5⟩).alloc).events =
      [Event.replyInvoked Payload.kill, Event.handle_error flowR.addr] ∧
    ((flowR.kill 100 ⟨5⟩).flow.kill 200 (flowR.kill 100 ⟨5⟩).alloc).flow.error ≠
      (flowR.kill 100 ⟨5⟩).flow.error :=
  kill_not_idempotent flowR 4 100 200 ⟨5⟩ (by decide)

/-- C3: the claim as stated is false on the code: `copy()` starts from a
shallow `copy.copy`, so on the concrete flow `flowB` (which has a stored
backup dict and an attached reply continuation) the copy aliases both the
backup slot (same dict identity) and the reply continuation. -/
theorem C3_counterexample :
    (flowB.copy ⟨100⟩).1.backupSlot = flowB.backupSlot ∧
    flowB.backupSlot ≠ none ∧
    (flowB.copy ⟨100⟩).1.reply = flowB.reply ∧ flowB.reply ≠ none := by
  decide

/-- C3 (amended): `copy()` duplicates `client_conn` and `server_conn`
via their own `copy()` (fresh identities, equal payloads) and duplicates
`error` via `Error.copy` when present (fresh identity, equal fields), but
the backup slot and the reply continuation are carried over by reference
from the shallow copy: they stay aliased between the original and the
copy. -/
theorem Flow_copy_sharing (f : Flow) (a : Alloc)
    (hc : f.client_conn.addr < a.next) (hs : f.server_conn.addr < a.next)
    (he : ∀ e, f.error = some e → e.addr < a.next) :
    (f.copy a).1.client_conn.addr ≠ f.client_conn.addr ∧
    (f.copy a).1.client_conn.st = f.client_conn.st ∧
    (f.copy a).1.server_conn.addr ≠ f.server_conn.addr ∧
    (f.copy a).1.server_conn.st = f.server_conn.st ∧
    (∀ e, f.error = some e →
      ∃ e2, (f.copy a).1.error = some e2 ∧ e2.addr ≠ e.addr ∧
        e2.msg = e.msg ∧ e2.timestamp = e.timestamp ∧ e2.flow = e.flow) ∧
    (f.error = none → (f.copy a).1.error = none) ∧
    (f.copy a).1.backupSlot = f.backupSlot ∧
    (f.copy a).1.reply = f.reply := by
  have hcc : (f.copy a).1.client_conn = ⟨a.next + 2, f.client_conn.st⟩ := by
    cases hE : f.error <;>
      simp [Flow.copy, hE, Alloc.fresh, ClientConnection.copy,
        ServerConnection.copy, Error.copy]
  have hsc : (f.copy a).1.server_conn = ⟨a.next + 3, f.server_conn.st⟩ := by
    cases hE : f.error <;>
      simp [Flow.copy, hE, Alloc.fresh, ClientConnection.copy,
        ServerConnection.copy, Error.copy]
  have hbk : (f.copy a).1.backupSlot = f.backupSlot := by
    cases hE : f.error <;>
      simp [Flow.copy, hE, Alloc.fresh, ClientConnection.copy,
        ServerConnection.copy, Error.copy]
  have hrp : (f.copy a).1.reply = f.reply := by
    cases hE : f.error <;>
      simp [Flow.copy, hE, Alloc.fresh, ClientConnection.copy,
        ServerConnection.copy, Error.copy]
  have herr : ∀ e, f.error = some e →
      (f.copy a).1.error = some { e with addr := a.next + 4 } := by
    intro e hE
    simp [Flow.copy, hE, Alloc.fresh, ClientConnection.copy,
      ServerConnection.copy, Error.copy]
  have herr0 : f.error = none → (f.copy a).1.error = none := by
    intro hE
    simp [Flow.copy, hE, Alloc.fresh, ClientConnection.copy,
      ServerConnection.copy]
  refine ⟨by rw [hcc]; simp; omega, by rw [hcc], by rw [hsc]; simp; omega,
    by rw [hsc], ?_, herr0, hbk, hrp⟩
  intro e hE
  exact ⟨{ e with addr := a.next + 4 }, herr e hE,
    by have := he e hE; simp; omega, rfl, rfl, rfl⟩

/-- C3 witness: the amended theorem applied to the concrete flow `flowB`
(no error attached, so the error conjuncts hold vacuously). -/
theorem Flow_copy_sharing_witness :
    (flowB.copy ⟨100⟩).1.client_conn.addr ≠ flowB.client_conn.addr ∧
    (flowB.copy ⟨100⟩).1.client_conn.st = flowB.client_conn.st ∧
    (flowB.copy ⟨100⟩).1.server_conn.addr ≠ flowB.server_conn.addr ∧
    (flowB.copy ⟨100⟩).1.server_conn.st = flowB.server_conn.st ∧
    (∀ e, flowB.error = some e →
      ∃ e2, (flowB.copy ⟨100⟩).1.error = some e2 ∧ e2.addr ≠ e.addr ∧
        e2.msg = e.msg ∧ e2.timestamp = e.timestamp ∧ e2.flow = e.flow) ∧
    (flowB.error = none → (flowB.copy ⟨100⟩).1.error = none) ∧
    (flowB.copy ⟨100⟩).1.backupSlot = flowB.backupSlot ∧
    (flowB.copy ⟨100⟩).1.reply = flowB.reply :=
  Flow_copy_sharing flowB ⟨100⟩ (by decide) (by decide)
    (by intro e hE; simp [flowB, flowR, flow0, Flow.init, Alloc.fresh, cc0, sc0] at hE)

/-- C4: the claim as stated is false on the code: `backup(force=True)`
does not recapture.  On the concrete flow `flowB` the stored backup
differs from the freshly computed state, yet `backup(force=True)` leaves
the flow (and its backup slot) unchanged. -/
theorem C4_counterexample :
    flowB.backupSlot = some (50, bv0) ∧
    (flowB.get_state false).base ≠ bv0.base ∧
    (flowB.backup true ⟨100⟩).1 = flowB := by
  decide

/-- C4 (amended): `backup()` captures the current full state into the
backup slot only when no backup is present; the `force` parameter is
accepted but ignored by the body, so even `force=True` never overwrites
an existing backup. -/
theorem backup_force_ignored (f : Flow) (a : Alloc) (force : Bool) :
    (∀ b, f.backupSlot = some b → f.backup force a = (f, a)) ∧
    (f.backupSlot = none → (f.backup force a).1.backupSlot =
      some (a.next, ⟨(f.get_state false).base,
        (f.get_state false).version⟩)) := by
  constructor
  · intro b hb
    simp [Flow.backup, hb]
  · intro hb
    simp [Flow.backup, hb, Alloc.fresh]

/-- C4 witness: the amended theorem applied to the concrete flow `flowB`
(backup present, `force=True`): the call changes nothing. -/
theorem backup_force_ignored_witness :
    (flowB.backup true ⟨100⟩) = (flowB, ⟨100⟩) :=
  (backup_force_ignored flowB ⟨100⟩ true).1 (50, bv0) rfl

/-- C5: `get_state` always stamps the output with the schema version
`IVERSION`, and when a stored backup differs (dict inequality) from the
freshly computed state, short mode adds `modified=True` (and no `backup`
key) while full mode embeds the entire stored backup dict under the
`backup` key (and no `modified` flag). -/
theorem get_state_version_and_backup_embed (f : Flow) :
    (∀ short, (f.get_state short).version = IVERSION) ∧
    (∀ da bv, f.backupSlot = some (da, bv) →
      FlowState.eqBV ⟨f.super_get_state, IVERSION, none, none⟩ bv = false →
        (f.get_state true).modified = some true ∧
        (f.get_state true).backup = none ∧
        (f.get_state false).backup = some bv ∧
        (f.get_state false).modified = none) := by
  constructor
  · intro short
    cases hb : f.backupSlot with
    | none => simp [Flow.get_state, hb]
    | some p =>
        obtain ⟨da, bv⟩ := p
        simp only [Flow.get_state, hb]
        split <;> [skip; rfl]
        cases short <;> rfl
  · intro da bv hb hne
    refine ⟨?_, ?_, ?_, ?_⟩ <;> simp [Flow.get_state, hb, hne]

/-- C5 witness: the theorem applied to the concrete flow `flowB`, whose
stored backup `bv0` differs from its freshly computed state. -/
theorem get_state_version_and_backup_embed_witness :
    (flowB.get_state true).modified = some true ∧
    (flowB.get_state false).backup = some bv0 :=
  ⟨((get_state_version_and_backup_embed flowB).2 50 bv0 rfl (by decide)).1,
   ((get_state_version_and_backup_embed flowB).2 50 bv0 rfl (by decide)).2.2.1⟩

/-- C6: the backup/revert round trip.  On a flow with no backup taken,
`modified()` is false and `revert()` is a no-op; after `backup()` and a
mutation of the serialized `intercepted` field, `modified()` is true;
after a subsequent `revert()`, `modified()` is false again, the backup
slot is cleared, and the mutated field holds its pre-mutation value. -/
theorem backup_mutate_revert (f : Flow) (a : Alloc) (b : Bool) (now : Int)
    (h0 : f.backupSlot = none) (hb : b ≠ f.intercepted) :
    f.modified = false ∧
    f.revert now a = (f, a) ∧
    ({ (f.backup false a).1 with intercepted := b } : Flow).modified = true ∧
    (({ (f.backup false a).1 with intercepted := b } : Flow).revert now
        (f.backup false a).2).1.modified = false ∧
    (({ (f.backup false a).1 with intercepted := b } : Flow).revert now
        (f.backup false a).2).1.backupSlot = none ∧
    (({ (f.backup false a).1 with intercepted := b } : Flow).revert now
        (f.backup false a).2).1.intercepted = f.intercepted := by
  have hf1 : (f.backup false a).1 =
      { f with backupSlot := some (a.next, ⟨f.super_get_state, IVERSION⟩) } := by
    simp [Flow.backup, h0, Flow.get_state, Alloc.fresh]
  refine ⟨?_, ?_, ?_, ?_, ?_, ?_⟩
  · simp [Flow.modified, h0]
  · simp [Flow.revert, h0]
  · rw [hf1]
    simp [Flow.modified, Flow.get_state, FlowState.eqBV, Flow.super_get_state,
      hb]
  · rw [hf1]
    simp [Flow.revert, Flow.load_state, Flow.modified]
  · rw [hf1]
    simp [Flow.revert, Flow.load_state]
  · rw [hf1]
    simp [Flow.revert, Flow.load_state, Flow.super_get_state]

/-- C6 witness: the theorem applied to the concrete flow `flow0` (no
backup taken, `intercepted = false`) with the mutation setting
`intercepted := true`. -/
theorem backup_mutate_revert_witness :
    flow0.modified = false ∧
    flow0.revert 100 ⟨100⟩ = (flow0, ⟨100⟩) ∧
    ({ (flow0.backup false ⟨100⟩).1 with intercepted := true } : Flow).modified
      = true ∧
    (({ (flow0.backup false ⟨100⟩).1 with intercepted := true } : Flow).revert
        100 (flow0.backup false ⟨100⟩).2).1.modified = false ∧
    (({ (flow0.backup false ⟨100⟩).1 with intercepted := true } : Flow).revert
        100 (flow0.backup false ⟨100⟩).2).1.backupSlot = none ∧
    (({ (flow0.backup false ⟨100⟩).1 with intercepted := true } : Flow).revert
        100 (flow0.backup false ⟨100⟩).2).1.intercepted = flow0.intercepted :=
  backup_mutate_revert flow0 ⟨100⟩ true 100 (by decide) (by decide)

end Mitmproxy
